import Mathlib

/- Shallow embedding of the pyetltools repository:
   core/context.py (Config, Context, the context-factory registry),
   tools/misc.py (gen_insert),
   data/sqlalchemy/netezza_dialect.py (limit_clause, DISTRIBUTE ON emission,
   oid_datatype_map, get_columns, has_table, get_table_oid).
   Machine-level details that do not matter here (logging, the ODBC
   connection object, sqlalchemy plumbing) are abstracted away; every
   function below mirrors the control flow of its Python source. -/

/-- A single-quote character, written by code point to keep source plain. -/
def squote : String := String.mk [Char.ofNat 39]

/-- The semantics of the Python str.join method: join a list of strings
with a separator. -/
def strJoin (sep : String) : List String → String
  | [] => ""
  | [x] => x
  | x :: y :: rest => x ++ sep ++ strJoin sep (y :: rest)

/-- Substring containment: sub occurs contiguously inside s. -/
def strContains (s sub : String) : Prop :=
  ∃ pre post : String, s = pre ++ sub ++ post

/-- The semantics of the Python str.lower method on the ASCII strings
this code handles: lowercase every character. -/
def pyLower (s : String) : String :=
  String.mk (s.data.map Char.toLower)

/- ## core/context.py -/

/-- A loaded configuration object. The field ctype models the Python
runtime type of the object, which is what the registry is keyed by. -/
structure Config where
  key : String
  ctype : String
  password : Option String
deriving DecidableEq

/-- A constructed context, bound to one Config (the Context constructor
stores the config and its key). -/
structure Context where
  config : Config
  config_key : String
deriving DecidableEq

/-- The Context constructor from core/context.py. -/
def Context.ofConfig (c : Config) : Context :=
  ⟨c, c.key⟩

/-- Context.get_password: when the config has no inline password, fetch
the password from the secret store keyed by the config key; otherwise the
Python function falls off its end and returns None. -/
def Context.get_password (secret_store : String → String) (ctx : Context) : Option String :=
  match ctx.config.password with
  | none => some (secret_store ctx.config.key)
  | some _ => none

/-- A context factory: a class exposing create_from_config. -/
structure ContextFactory (Ctx : Type) where
  create_from_config : Config → Ctx

/-- register_context_factory: store the factory under the config type,
overwriting any previous entry (Python dict assignment). -/
def register_context_factory {Ctx : Type}
    (m : String → Option (ContextFactory Ctx))
    (config_type : String) (context_factory : ContextFactory Ctx) :
    String → Option (ContextFactory Ctx) :=
  fun t => if t = config_type then some context_factory else m t

/-- get(config_key): load the config, look up a factory by the runtime
type of the config, raise when absent, otherwise build the context. -/
def context.get {Ctx : Type} (get_config : String → Config)
    (m : String → Option (ContextFactory Ctx)) (config_key : String) :
    Except String Ctx :=
  let config := get_config config_key
  match m config.ctype with
  | none => Except.error ("Context factory for " ++ config.ctype ++ " not configured.")
  | some factory => Except.ok (factory.create_from_config config)

/- ## tools/misc.py -/

/-- gen_insert: builds an insert statement with every column name wrapped
in single quotes, in both the column list and the values list. -/
def gen_insert (tablename : String) (columns : List String) : String :=
  "insert into " ++ tablename ++ " (" ++
    strJoin ",\n" (columns.map (fun i => squote ++ i ++ squote)) ++
    ") values (" ++
    strJoin ",\n" (columns.map (fun i => squote ++ i ++ squote)) ++ ")"

/- ## data/sqlalchemy/netezza_dialect.py -/

/-- NetezzaCompiler.limit_clause: inlines limit and offset as literals,
and emits LIMIT ALL when an offset is present without a limit. -/
def limit_clause (limit offset : Option Int) : String :=
  let text1 :=
    match limit with
    | some l => " \n LIMIT " ++ toString l
    | none => ""
  let text2 :=
    match offset with
    | some o =>
      (match limit with
       | none => " \n LIMIT ALL"
       | some _ => "") ++ " OFFSET " ++ toString o
    | none => ""
  text1 ++ text2

/-- The DistributeOn schema item; its constructor turns an empty argument
list into the single name RANDOM, so column_names is never empty. -/
structure DistributeOn where
  column_names : List String
deriving DecidableEq

/-- The DistributeOn constructor. -/
def DistributeOn.ofArgs (column_names : List String) : DistributeOn :=
  ⟨if column_names.isEmpty then ["RANDOM"] else column_names⟩

/-- NetezzaDDLCompiler.post_create_table: appends the DISTRIBUTE ON clause
to create-table DDL. The argument is the optional distribute_on attribute
of the table (none when the table carries no DistributeOn item). -/
def post_create_table (distribute_on : Option DistributeOn) : String :=
  match distribute_on with
  | some d =>
    if pyLower (d.column_names.headD "") ≠ "random" then
      " DISTRIBUTE ON (" ++ strJoin "," d.column_names ++ ")"
    else
      " DISTRIBUTE ON RANDOM"
  | none => " DISTRIBUTE ON RANDOM"

/-- A Python value that is either a string or a tuple of strings, the two
documented shapes of the CreateTableAs distribute_on attribute. -/
inductive PyStrOrTuple where
  | str (s : String)
  | tup (names : List String)
deriving DecidableEq

/-- CreateTableAs.distribute_clause: calls lower() on distribute_on, which
raises AttributeError when distribute_on is a tuple; on a non-random
string it joins the CHARACTERS of the string with commas (Python
str.join iterates over a string argument character by character). -/
def distribute_clause : PyStrOrTuple → Except String String
  | PyStrOrTuple.tup _ =>
    Except.error "AttributeError: tuple object has no attribute lower"
  | PyStrOrTuple.str s =>
    if pyLower s ≠ "random" then
      Except.ok ("(" ++ strJoin "," (s.data.map (fun c => String.mk [c])) ++ ")")
    else
      Except.ok "RANDOM"

/-- oid_datatype_map: the static map from appliance type ids to
(sqlalchemy type class, has variable length) pairs; the class is
identified here by its source name. -/
def oid_datatype_map : Nat → Option (String × Bool)
  | 16 => some ("Boolean", false)
  | 18 => some ("CHAR", false)
  | 19 => some ("NAME", false)
  | 20 => some ("BigInteger", false)
  | 21 => some ("SmallInteger", false)
  | 23 => some ("Integer", false)
  | 25 => some ("TEXT", false)
  | 26 => some ("OID", false)
  | 700 => some ("REAL", false)
  | 701 => some ("DOUBLE_PRECISION", false)
  | 702 => some ("ABSTIME", false)
  | 1042 => some ("CHAR", true)
  | 1043 => some ("String", true)
  | 1082 => some ("Date", false)
  | 1083 => some ("TIME", false)
  | 1184 => some ("TIMESTAMP", false)
  | 1186 => some ("INTERVAL", false)
  | 1266 => some ("TIMESTAMP", false)
  | 1700 => some ("Numeric", false)
  | 2500 => some ("BYTEINT", false)
  | 2522 => some ("NCHAR", true)
  | 2530 => some ("NVARCHAR", true)
  | 2552 => some ("ST_GEOMETRY", true)
  | 2568 => some ("VARBINARY", true)
  | _ => none

/-- Decimal digits to a natural number. -/
def digitsToNat (ds : List Char) : Nat :=
  ds.foldl (fun a c => a * 10 + (c.toNat - 48)) 0

/-- Strip an expected literal from the front of a character list. -/
def stripExpected : List Char → List Char → Option (List Char)
  | [], cs => some cs
  | _ :: _, [] => none
  | p :: ps, c :: cs => if c = p then stripExpected ps cs else none

/-- The regular-expression match used by get_columns for numeric types:
re.match on numeric, open paren, digits, comma, digits, close paren,
applied to the lowercased format_type; trailing characters are allowed
because re.match only anchors at the start. -/
def matchNumericFormat (format_type : String) : Option (Nat × Nat) :=
  match stripExpected ("numeric(".data) (pyLower format_type).data with
  | none => none
  | some rest =>
    let p1 := rest.span Char.isDigit
    if p1.1.isEmpty then none
    else
      match p1.2 with
      | ',' :: rest2 =>
        let p2 := rest2.span Char.isDigit
        if p2.1.isEmpty then none
        else
          match p2.2 with
          | ')' :: _ => some (digitsToNat p1.1, digitsToNat p2.1)
          | _ => none
      | _ => none

/-- One row of the _v_relation_column query issued by get_columns. -/
structure RelColRow where
  name : String
  typeid : Nat
  nullable : Bool
  length : Int
  format_type : String
deriving DecidableEq

/-- A constructed sqlalchemy column type: class name plus the arguments
it was instantiated with ([precision, scale] for Numeric, [length] for
variable-length classes, [] otherwise). -/
structure ColType where
  cls : String
  args : List Int
deriving DecidableEq

/-- One entry of the column list returned by get_columns. -/
structure ReflectedColumn where
  name : String
  type : ColType
  nullable : Bool
deriving DecidableEq

/-- The per-row body of the get_columns loop: the oid_datatype_map lookup
(KeyError on a miss), the Numeric precision/scale parse (an attribute
error when the pattern does not match, since the Python code calls
groups() on the match result), the variable-length case, and the
no-argument case. -/
def processRow (r : RelColRow) : Except String ReflectedColumn :=
  match oid_datatype_map r.typeid with
  | none => Except.error ("KeyError: " ++ toString r.typeid)
  | some (cls, has_length) =>
    if cls = "Numeric" then
      match matchNumericFormat r.format_type with
      | none => Except.error "AttributeError: NoneType has no attribute groups"
      | some (p, s) => Except.ok ⟨r.name, ⟨cls, [(p : Int), (s : Int)]⟩, r.nullable⟩
    else if has_length then
      Except.ok ⟨r.name, ⟨cls, [r.length]⟩, r.nullable⟩
    else
      Except.ok ⟨r.name, ⟨cls, []⟩, r.nullable⟩

/-- NetezzaODBC.get_columns over the fetched rows: formats every row in
order; an exception raised by any row aborts the whole call, so no
partial column list is ever returned. -/
def get_columns : List RelColRow → Except String (List ReflectedColumn)
  | [] => Except.ok []
  | r :: rest =>
    match processRow r with
    | Except.error e => Except.error e
    | Except.ok c =>
      match get_columns rest with
      | Except.error e => Except.error e
      | Except.ok cs => Except.ok (c :: cs)

/-- One row of the _v_object_data system view, as consulted by has_table.
The schema field exists on the appliance side, but the has_table query
never mentions it. -/
structure ObjectDataRow where
  objname : String
  dbname : String
  schema : String
deriving DecidableEq

/-- NetezzaODBC.has_table: counts the _v_object_data rows whose objname
is the table name and whose dbname is the current database, and returns
the truthiness of the count. The schema parameter of the Python method is
accepted but never used in the query. -/
def has_table (objdata : List ObjectDataRow) (tablename dbname : String)
    (schema : Option String) : Bool :=
  decide (0 < (objdata.filter
    (fun r => r.objname == tablename && r.dbname == dbname)).length)

/-- One row of the _V_TABLE system view, as consulted by get_table_oid. -/
structure VTableRow where
  tablename : String
  schema : String
  oid : Int
deriving DecidableEq

/-- NetezzaODBC.get_table_oid: filters _V_TABLE by schema when a schema
is given (the clause degenerates to 1=1 otherwise) and by table name,
takes the first value of the first row, and raises NoSuchTableError
naming the table when no row came back. -/
def get_table_oid (vtable : List VTableRow) (table_name : String)
    (schema : Option String) : Except String Int :=
  let rows := vtable.filter (fun r =>
    (match schema with
     | some s => r.schema == s
     | none => true) && r.tablename == table_name)
  match rows with
  | [] => Except.error ("NoSuchTableError: " ++ table_name)
  | r :: _ => Except.ok r.oid

/- ## Helper lemmas -/

/-- Appending on both sides preserves substring containment. -/
theorem strContains_of_append (a b m sub : String) (h : strContains m sub) :
    strContains ((a ++ m) ++ b) sub := by
  obtain ⟨p, q, hp⟩ := h
  exact ⟨a ++ p, q ++ b, by subst hp; simp [String.append_assoc]⟩

/-- Every element of a joined list occurs inside the join. -/
theorem strJoin_mem_contains (sep : String) (xs : List String) (c : String)
    (hc : c ∈ xs) : strContains (strJoin sep xs) c := by
  induction xs with
  | nil => cases hc
  | cons x rest ih =>
    cases rest with
    | nil =>
      rcases List.mem_singleton.mp hc with rfl
      exact ⟨"", "", by simp [strJoin, String.append_empty]⟩
    | cons y rest2 =>
      cases hc with
      | head =>
        exact ⟨"", sep ++ strJoin sep (y :: rest2), by simp [strJoin, String.append_assoc]⟩
      | tail _ hc2 =>
        obtain ⟨p, q, hp⟩ := ih hc2
        exact ⟨x ++ sep ++ p, q, by simp [strJoin, hp, String.append_assoc]⟩

/-- An error on any row aborts the whole get_columns call. -/
theorem get_columns_error_of_mem (rows : List RelColRow) (r : RelColRow)
    (hmem : r ∈ rows) (herr : ∃ e, processRow r = Except.error e) :
    ∃ e, get_columns rows = Except.error e := by
  induction rows with
  | nil => cases hmem
  | cons x rest ih =>
    cases hmem with
    | head =>
      obtain ⟨e, he⟩ := herr
      exact ⟨e, by simp [get_columns, he]⟩
    | tail _ hmem2 =>
      obtain ⟨e, he⟩ := ih hmem2
      cases hpr : processRow x with
      | error e2 => exact ⟨e2, by simp [get_columns, hpr]⟩
      | ok c => exact ⟨e, by simp [get_columns, hpr, he]⟩

/- ## Claim theorems -/

/-- Claim C1: after registering factory F for config type T, get on a key
whose loaded Config has runtime type T returns the object produced by
F.create_from_config on that Config; get on a key whose Config type has
no registered factory raises an error naming that config type. -/
theorem context_registry_get (Ctx : Type) (get_config : String → Config)
    (m : String → Option (ContextFactory Ctx)) (t : String) (f : ContextFactory Ctx) :
    (∀ config_key, (get_config config_key).ctype = t →
      context.get get_config (register_context_factory m t f) config_key =
        Except.ok (f.create_from_config (get_config config_key)))
    ∧ (∀ config_key, m (get_config config_key).ctype = none →
      context.get get_config m config_key =
        Except.error ("Context factory for " ++ (get_config config_key).ctype ++
          " not configured.")) := by
  constructor
  · intro k hk
    simp [context.get, register_context_factory, hk]
  · intro k hk
    simp [context.get, hk]

/-- Witness for C1 at a concrete registry, factory and config. -/
theorem context_registry_get_witness :
    context.get (fun _ => Config.mk "k1" "DBConfig" none)
      (register_context_factory (fun _ => none) "DBConfig"
        (ContextFactory.mk (fun _ => (7 : Nat)))) "k1" = Except.ok 7
    ∧ context.get (fun _ => Config.mk "k1" "DBConfig" none)
      (fun _ => (none : Option (ContextFactory Nat))) "k1" =
        Except.error "Context factory for DBConfig not configured." := by
  constructor
  · exact (context_registry_get Nat (fun _ => Config.mk "k1" "DBConfig" none)
      (fun _ => none) "DBConfig" (ContextFactory.mk (fun _ => (7 : Nat)))).1 "k1" rfl
  · exact (context_registry_get Nat (fun _ => Config.mk "k1" "DBConfig" none)
      (fun _ => none) "DBConfig" (ContextFactory.mk (fun _ => (7 : Nat)))).2 "k1" rfl

/-- Claim C8: when the Config has no inline password, get_password returns
the secret-store password keyed by the config key. -/
theorem get_password_falls_back_to_secret_store
    (secret_store : String → String) (ctx : Context)
    (h : ctx.config.password = none) :
    Context.get_password secret_store ctx = some (secret_store ctx.config.key) := by
  simp [Context.get_password, h]

/-- Witness for C8 at a concrete config without inline password. -/
theorem get_password_falls_back_witness :
    Context.get_password (fun _ => "s3cret")
      (Context.ofConfig (Config.mk "k1" "DBConfig" none)) = some "s3cret" :=
  get_password_falls_back_to_secret_store (fun _ => "s3cret") _ rfl

/-- Claim C9: when the Config has an inline password, get_password returns
None; the inline password is never returned. -/
theorem get_password_inline_never_returned
    (secret_store : String → String) (ctx : Context) (p : String)
    (h : ctx.config.password = some p) :
    Context.get_password secret_store ctx = none := by
  simp [Context.get_password, h]

/-- Witness for C9 at a concrete config with an inline password. -/
theorem get_password_inline_never_returned_witness :
    Context.get_password (fun _ => "s3cret")
      (Context.ofConfig (Config.mk "k1" "DBConfig" (some "inline"))) = none :=
  get_password_inline_never_returned (fun _ => "s3cret") _ "inline" rfl

/-- Claim C5 (code behaviour at the failing input): post_create_table
emits the DISTRIBUTE ON clause as specified, but
CreateTableAs.distribute_clause raises an AttributeError on a tuple of
column names because it calls lower() on the tuple, so the column-list
half of the claim fails for CreateTableAs. -/
theorem distribute_on_emission :
    post_create_table (some (DistributeOn.ofArgs ["a", "b"])) = " DISTRIBUTE ON (a,b)"
    ∧ post_create_table (some (DistributeOn.ofArgs ["random"])) = " DISTRIBUTE ON RANDOM"
    ∧ post_create_table (some (DistributeOn.ofArgs ["RANDOM"])) = " DISTRIBUTE ON RANDOM"
    ∧ post_create_table none = " DISTRIBUTE ON RANDOM"
    ∧ distribute_clause (PyStrOrTuple.str "random") = Except.ok "RANDOM"
    ∧ distribute_clause (PyStrOrTuple.str "RANDOM") = Except.ok "RANDOM"
    ∧ distribute_clause (PyStrOrTuple.tup ["a", "b"]) =
        Except.error "AttributeError: tuple object has no attribute lower" :=
  ⟨rfl, rfl, rfl, rfl, rfl, rfl, rfl⟩

/-- Claim C6: limit_clause inlines limit and offset as literals in the
emitted text, for every pair of integers, and the concrete pair 10, 5
yields text containing LIMIT 10 and OFFSET 5. -/
theorem limit_clause_inlines_literal_values :
    (∀ l o : Int, limit_clause (some l) (some o) =
      " \n LIMIT " ++ toString l ++ " OFFSET " ++ toString o)
    ∧ (∀ l o : Int, strContains (limit_clause (some l) (some o)) ("LIMIT " ++ toString l))
    ∧ (∀ l o : Int, strContains (limit_clause (some l) (some o)) ("OFFSET " ++ toString o))
    ∧ strContains (limit_clause (some 10) (some 5)) "LIMIT 10"
    ∧ strContains (limit_clause (some 10) (some 5)) "OFFSET 5" := by
  refine ⟨?_, ?_, ?_, ⟨" \n ", " OFFSET 5", by decide⟩, ⟨" \n LIMIT 10 ", "", by decide⟩⟩
  · intro l o
    simp [limit_clause, String.append_assoc]
  · intro l o
    have key : ∀ X : String, (" \n LIMIT " : String) ++ X = " \n " ++ ("LIMIT " ++ X) :=
      fun X => String.append_assoc " \n " "LIMIT " X
    refine ⟨" \n ", " OFFSET " ++ toString o, ?_⟩
    simp [limit_clause, String.append_assoc, key]
  · intro l o
    have key : ∀ X : String, (" OFFSET " : String) ++ X = " " ++ ("OFFSET " ++ X) :=
      fun X => String.append_assoc " " "OFFSET " X
    refine ⟨" \n LIMIT " ++ toString l ++ " ", "", ?_⟩
    simp [limit_clause, String.append_assoc, String.append_empty, key]

/-- Claim C10: with an offset but no limit, limit_clause emits LIMIT ALL
immediately before the OFFSET clause; whenever an OFFSET is emitted it is
preceded by a LIMIT. -/
theorem offset_implies_limit_all :
    (∀ o : Int, limit_clause none (some o) = " \n LIMIT ALL OFFSET " ++ toString o)
    ∧ (∀ (limit : Option Int) (o : Int), ∃ mid,
      limit_clause limit (some o) = " \n LIMIT " ++ mid ++ " OFFSET " ++ toString o) := by
  constructor
  · intro o
    rfl
  · intro limit o
    cases limit with
    | none => exact ⟨"ALL", rfl⟩
    | some l =>
      refine ⟨toString l, ?_⟩
      simp [limit_clause, String.append_assoc]

/-- Claim C7: gen_insert places each column name single-quoted, joined by
comma-newline, in both the column list and the values list, with no bind
parameters; on table t with columns a and b the output contains the
fragment the claim names. -/
theorem gen_insert_quotes_column_names :
    (∀ tablename columns, gen_insert tablename columns =
      "insert into " ++ tablename ++ " (" ++
        strJoin ",\n" (columns.map (fun i => squote ++ i ++ squote)) ++
        ") values (" ++
        strJoin ",\n" (columns.map (fun i => squote ++ i ++ squote)) ++ ")")
    ∧ (∀ tablename columns c, c ∈ columns →
      strContains (gen_insert tablename columns) (squote ++ c ++ squote))
    ∧ strContains (gen_insert "t" ["a", "b"])
      ("insert into t (" ++ squote ++ "a" ++ squote ++ ",\n" ++
        squote ++ "b" ++ squote ++ ")") := by
  refine ⟨fun _ _ => rfl, ?_, ⟨"", " values (" ++ squote ++ "a" ++ squote ++ ",\n" ++
    squote ++ "b" ++ squote ++ ")", by decide⟩⟩
  intro tablename columns c hc
  have h1 : strContains (strJoin ",\n" (columns.map (fun i => squote ++ i ++ squote)))
      (squote ++ c ++ squote) :=
    strJoin_mem_contains _ _ _ (List.mem_map_of_mem _ hc)
  have h2 := strContains_of_append (("insert into " ++ tablename) ++ " (")
    ((") values (" ++ strJoin ",\n" (columns.map (fun i => squote ++ i ++ squote))) ++ ")")
    _ _ h1
  have he : gen_insert tablename columns =
      ((("insert into " ++ tablename) ++ " (") ++
        strJoin ",\n" (columns.map (fun i => squote ++ i ++ squote))) ++
      ((") values (" ++ strJoin ",\n" (columns.map (fun i => squote ++ i ++ squote))) ++ ")") := by
    simp [gen_insert, String.append_assoc]
  rw [he]
  exact h2

/-- Claim C2: for every type id in oid_datatype_map, get_columns produces
a column whose type is the mapped class: the Numeric entry carries the
precision and scale parsed from the format_type, variable-length entries
carry the row length, all other entries carry no arguments; and id 1700
is the Numeric entry. -/
theorem get_columns_maps_known_typeids
    (r : RelColRow) (cls : String) (hl : Bool)
    (hmap : oid_datatype_map r.typeid = some (cls, hl)) :
    (∀ p s, cls = "Numeric" → matchNumericFormat r.format_type = some (p, s) →
      get_columns [r] = Except.ok
        [ReflectedColumn.mk r.name (ColType.mk cls [(p : Int), (s : Int)]) r.nullable])
    ∧ (cls ≠ "Numeric" → hl = true →
      get_columns [r] = Except.ok
        [ReflectedColumn.mk r.name (ColType.mk cls [r.length]) r.nullable])
    ∧ (cls ≠ "Numeric" → hl = false →
      get_columns [r] = Except.ok
        [ReflectedColumn.mk r.name (ColType.mk cls []) r.nullable])
    ∧ oid_datatype_map 1700 = some ("Numeric", false) := by
  refine ⟨?_, ?_, ?_, rfl⟩
  · intro p s hcls hfmt
    subst hcls
    simp [get_columns, processRow, hmap, hfmt]
  · intro hcls hhl
    subst hhl
    simp [get_columns, processRow, hmap, hcls]
  · intro hcls hhl
    subst hhl
    simp [get_columns, processRow, hmap, hcls]

/-- Witness for C2 at a Numeric row, a variable-length row and a
fixed-type row. -/
theorem get_columns_maps_known_typeids_witness :
    get_columns [RelColRow.mk "c1" 1700 true (-1) "NUMERIC(10,2)"] =
      Except.ok [ReflectedColumn.mk "c1" (ColType.mk "Numeric" [10, 2]) true]
    ∧ get_columns [RelColRow.mk "c2" 1043 false 20 "character varying(20)"] =
      Except.ok [ReflectedColumn.mk "c2" (ColType.mk "String" [20]) false]
    ∧ get_columns [RelColRow.mk "c3" 23 true 4 "integer"] =
      Except.ok [ReflectedColumn.mk "c3" (ColType.mk "Integer" []) true] := by
  refine ⟨?_, ?_, ?_⟩
  · exact (get_columns_maps_known_typeids (RelColRow.mk "c1" 1700 true (-1) "NUMERIC(10,2)")
      "Numeric" false (by decide)).1 10 2 rfl (by decide)
  · exact (get_columns_maps_known_typeids (RelColRow.mk "c2" 1043 false 20 "character varying(20)")
      "String" true (by decide)).2.1 (by decide) rfl
  · exact (get_columns_maps_known_typeids (RelColRow.mk "c3" 23 true 4 "integer")
      "Integer" false (by decide)).2.2.1 (by decide) rfl

/-- Claim C3: a row whose type id is not in oid_datatype_map makes
get_columns raise a lookup failure that propagates: the call never
returns a column list, partial or otherwise. -/
theorem get_columns_unmapped_typeid_raises
    (rows : List RelColRow) (r : RelColRow)
    (hmem : r ∈ rows) (hmap : oid_datatype_map r.typeid = none) :
    (∀ cols, get_columns rows ≠ Except.ok cols)
    ∧ (∃ e, get_columns rows = Except.error e)
    ∧ get_columns [r] = Except.error ("KeyError: " ++ toString r.typeid) := by
  have herr : processRow r = Except.error ("KeyError: " ++ toString r.typeid) := by
    simp [processRow, hmap]
  obtain ⟨e, he⟩ := get_columns_error_of_mem rows r hmem ⟨_, herr⟩
  refine ⟨?_, ⟨e, he⟩, ?_⟩
  · intro cols hok
    rw [he] at hok
    exact Except.noConfusion hok
  · simp [get_columns, herr]

/-- Witness for C3 at a row with the unmapped type id 999. -/
theorem get_columns_unmapped_typeid_raises_witness :
    get_columns [RelColRow.mk "x" 999 true 0 ""] ≠ Except.ok []
    ∧ get_columns [RelColRow.mk "x" 999 true 0 ""] =
        Except.error "KeyError: 999" := by
  constructor
  · exact (get_columns_unmapped_typeid_raises [RelColRow.mk "x" 999 true 0 ""]
      (RelColRow.mk "x" 999 true 0 "") (List.Mem.head _) rfl).1 []
  · exact (get_columns_unmapped_typeid_raises [RelColRow.mk "x" 999 true 0 ""]
      (RelColRow.mk "x" 999 true 0 "") (List.Mem.head _) rfl).2.2

/-- Claim C4 counterexample: has_table ignores its schema argument, so a
lookup asking for schema S2 against a catalog whose only row lives in
schema S1 still reports the table as existing; table existence is NOT
scoped by schema. -/
theorem has_table_not_schema_scoped :
    has_table [ObjectDataRow.mk "t" "db1" "S1"] "t" "db1" (some "S2") = true
    ∧ (ObjectDataRow.mk "t" "db1" "S1").schema ≠ "S2"
    ∧ has_table [ObjectDataRow.mk "t" "db1" "S1"] "t" "db1" (some "S2") =
        has_table [ObjectDataRow.mk "t" "db1" "S1"] "t" "db1" (some "S1") :=
  ⟨rfl, by decide, rfl⟩

/-- Claim C4 as amended: has_table is scoped by database name only (its
result is independent of the schema argument), get_table_oid is scoped by
schema exactly when a schema is passed, and get_table_oid raises the
NoSuchTableError naming the table exactly when its query over _V_TABLE
returns no row. -/
theorem table_lookup_scoping
    (objdata : List ObjectDataRow) (vtable : List VTableRow)
    (tablename dbname s : String) (schema : Option String) :
    (has_table objdata tablename dbname schema = true ↔
      ∃ r ∈ objdata, r.objname = tablename ∧ r.dbname = dbname)
    ∧ (∀ sch1 sch2, has_table objdata tablename dbname sch1 =
        has_table objdata tablename dbname sch2)
    ∧ (get_table_oid vtable tablename (some s) =
        Except.error ("NoSuchTableError: " ++ tablename) ↔
      ∀ r ∈ vtable, ¬(r.schema = s ∧ r.tablename = tablename))
    ∧ (get_table_oid vtable tablename none =
        Except.error ("NoSuchTableError: " ++ tablename) ↔
      ∀ r ∈ vtable, r.tablename ≠ tablename) := by
  refine ⟨?_, fun _ _ => rfl, ?_, ?_⟩
  · simp [has_table, List.length_pos_iff_exists_mem, List.mem_filter]
  · rw [get_table_oid]
    rcases hf : List.filter
        (fun r => (r.schema == s) && (r.tablename == tablename)) vtable with _ | ⟨r, rest⟩
    · simp only [hf]
      have hall := List.filter_eq_nil_iff.mp hf
      simp only [Bool.and_eq_true, beq_iff_eq] at hall
      constructor
      · intro _ r hr hcon
        exact hall r hr ⟨hcon.1, hcon.2⟩
      · intro _
        trivial
    · simp only [hf]
      have hr : r ∈ List.filter
          (fun r => (r.schema == s) && (r.tablename == tablename)) vtable := by
        rw [hf]; exact List.Mem.head _
      have hr2 := List.mem_filter.mp hr
      simp only [Bool.and_eq_true, beq_iff_eq] at hr2
      constructor
      · intro hok
        exact Except.noConfusion hok
      · intro hall
        exact absurd ⟨hr2.2.1, hr2.2.2⟩ (hall r hr2.1)
  · rw [get_table_oid]
    rcases hf : List.filter
        (fun r => true && (r.tablename == tablename)) vtable with _ | ⟨r, rest⟩
    · simp only [hf]
      have hall := List.filter_eq_nil_iff.mp hf
      simp only [Bool.true_and, beq_iff_eq] at hall
      constructor
      · intro _ r hr
        exact hall r hr
      · intro _
        trivial
    · simp only [hf]
      have hr : r ∈ List.filter
          (fun r => true && (r.tablename == tablename)) vtable := by
        rw [hf]; exact List.Mem.head _
      have hr2 := List.mem_filter.mp hr
      simp only [Bool.true_and, beq_iff_eq] at hr2
      constructor
      · intro hok
        exact Except.noConfusion hok
      · intro hall
        exact absurd hr2.2 (hall r hr2.1)

/-- Witness for C4 at a concrete catalog: an existing table is found, and
a lookup over an empty view raises the no-such-table error. -/
theorem table_lookup_scoping_witness :
    has_table [ObjectDataRow.mk "t" "db1" "S1"] "t" "db1" none = true
    ∧ get_table_oid ([] : List VTableRow) "t" (some "S1") =
        Except.error "NoSuchTableError: t" := by
  constructor
  · exact (table_lookup_scoping [ObjectDataRow.mk "t" "db1" "S1"] [] "t" "db1" "S1" none).1.mpr
      ⟨ObjectDataRow.mk "t" "db1" "S1", List.Mem.head _, rfl, rfl⟩
  · exact (table_lookup_scoping [] ([] : List VTableRow) "t" "db1" "S1" none).2.2.1.mpr
      (by simp)

/-- Witness for C7 at a concrete table and column list. -/
theorem gen_insert_quotes_column_names_witness :
    strContains (gen_insert "t" ["a", "b"]) (squote ++ "a" ++ squote) :=
  gen_insert_quotes_column_names.2.1 "t" ["a", "b"] "a" (List.Mem.head _)
